import Mathlib

/-!
Shallow embedding of `betterMT5/core.py` (and the identical helpers in
`bettermt5/utils.py`): the broker-clock conversions, timeframe arithmetic,
the per-shape rate validators, the retry-on-empty fetch loop and the
`history` dispatcher.

Instants are modelled as integer epoch seconds (the code works with
timezone-aware `datetime` objects whose identity is exactly their epoch
value; `datetime.timestamp()` is that value).  Millisecond-resolution
pandas timestamps appear only in the DataFrame branch of
`mt5_date_to_utc` and are modelled there as integer epoch milliseconds.
-/

/-- The MetaTrader timeframe enumeration (`mt5.TIMEFRAME`). -/
inductive TIMEFRAME
  | M1 | M2 | M3 | M4 | M5 | M6 | M10 | M12 | M15 | M20 | M30
  | H1 | H2 | H3 | H4 | H6 | H8 | H12
  | D1 | W1 | MN1
  deriving DecidableEq, Repr

/-- `to_seconds` (`core.py` line 43): the duration of one candle in seconds,
via `mt5.period_seconds` of the pymt5adapter dependency (minutes·60,
hours·3600, a day, a week, a 30-day month). -/
def to_seconds : TIMEFRAME → Int
  | .M1 => 60 | .M2 => 120 | .M3 => 180 | .M4 => 240 | .M5 => 300
  | .M6 => 360 | .M10 => 600 | .M12 => 720 | .M15 => 900
  | .M20 => 1200 | .M30 => 1800
  | .H1 => 3600 | .H2 => 7200 | .H3 => 10800 | .H4 => 14400
  | .H6 => 21600 | .H8 => 28800 | .H12 => 43200
  | .D1 => 86400 | .W1 => 604800 | .MN1 => 2592000

theorem to_seconds_pos (tf : TIMEFRAME) : 0 < to_seconds tf := by
  cases tf <;> decide

/-! ### Gregorian calendar arithmetic

`pytz.timezone("US/Eastern")` resolves daylight saving from the tz
database; for the years the code targets (2007 onward) that database is
exactly the second-Sunday-of-March / first-Sunday-of-November rule.  We
embed that rule with the standard civil-calendar conversions
(days-from-civil and its inverse). -/

/-- Days since 1970-01-01 of the civil date `(y, m, d)`. -/
def days_from_civil (y m d : Int) : Int :=
  let y' := if m ≤ 2 then y - 1 else y
  let era := y'.fdiv 400
  let yoe := y' - era * 400
  let mp := m + (if 2 < m then -3 else 9)
  let doy := (153 * mp + 2) / 5 + d - 1
  let doe := yoe * 365 + yoe / 4 - yoe / 100 + doy
  era * 146097 + doe - 719468

/-- Civil date `(y, m, d)` of a count of days since 1970-01-01. -/
def civil_from_days (z : Int) : Int × Int × Int :=
  let z' := z + 719468
  let era := z'.fdiv 146097
  let doe := z' - era * 146097
  let yoe := (doe - doe / 1460 + doe / 36524 - doe / 146096) / 365
  let y := yoe + era * 400
  let doy := doe - (365 * yoe + yoe / 4 - yoe / 100)
  let mp := (5 * doy + 2) / 153
  let d := doy - (153 * mp + 2) / 5 + 1
  let m := mp + (if mp < 10 then 3 else -9)
  (y + (if m ≤ 2 then 1 else 0), m, d)

/-- Day of the month of the first Sunday of month `m` in year `y`. -/
def first_sunday (y m : Int) : Int :=
  let w := (days_from_civil y m 1 + 4).emod 7
  1 + (7 - w).emod 7

/-- UTC epoch second at which US-Eastern daylight saving starts in year
`y`: 02:00 EST (= 07:00 UTC) on the second Sunday of March. -/
def dst_start (y : Int) : Int :=
  days_from_civil y 3 (first_sunday y 3 + 7) * 86400 + 7 * 3600

/-- UTC epoch second at which US-Eastern daylight saving ends in year
`y`: 02:00 EDT (= 06:00 UTC) on the first Sunday of November. -/
def dst_end (y : Int) : Int :=
  days_from_civil y 11 (first_sunday y 11) * 86400 + 6 * 3600

/-- Whether US-Eastern daylight saving is active at UTC instant `u`
(epoch seconds).  This is `bool(x.dst())` of the instant viewed in
`pytz.timezone("US/Eastern")`. -/
def dstUS (u : Int) : Bool :=
  let y := (civil_from_days (u.fdiv 86400)).1
  decide (dst_start y ≤ u ∧ u < dst_end y)

/-! ### BrokerClock: `localized_date_to_mt5` / `mt5_date_to_utc` -/

/-- `localized_date_to_mt5` (`core.py` lines 55-77).  The input is a
timezone-aware instant `u`.  `date.astimezone(gmt3)` keeps the instant
and re-expresses its wall clock at UTC+3; `.replace(tzinfo=pytz.UTC)`
then re-reads that wall clock as UTC, so the returned instant is
`u + 10800` when US-Eastern DST is active at `u` and `u + 7200`
otherwise. -/
def localized_date_to_mt5 (u : Int) : Int :=
  if dstUS u then u + 10800 else u + 7200

/-- Scalar branch of `mt5_date_to_utc` (`core.py` lines 95-112).  The
input is a naive broker-local wall-clock reading `w`.
`gmt2.localize(w)` denotes the instant `w - 7200`, `gmt3.localize(w)`
the instant `w - 10800`; the GMT+2 reading is shown to US-Eastern and
its DST flag picks between them. -/
def mt5_date_to_utc_scalar (w : Int) : Int :=
  if dstUS (w - 7200) then w - 10800 else w - 7200

/-- Scalar `mt5_date_to_utc` applied to a millisecond-resolution pandas
timestamp `w` (epoch **milliseconds**): the same algorithm with the
fixed offsets in milliseconds; the DST flag is a property of the
instant `w - 7200000` ms. -/
def mt5_date_to_utc_ms (w : Int) : Int :=
  if dstUS ((w - 7200000).fdiv 1000) then w - 10800000 else w - 7200000

/-- A rates DataFrame as fed to the `except AttributeError` branch of
`mt5_date_to_utc` (`core.py` lines 114-128): a `time` column in epoch
seconds, and optionally a `time_msc` column in epoch milliseconds. -/
structure RatesFrame where
  time : List Int
  time_msc : Option (List Int)

/-- DataFrame branch of `mt5_date_to_utc` (`core.py` lines 114-128): an
empty frame is returned untouched; otherwise the `time` column is built
from `time` (seconds) or — when present — from `time_msc`
(milliseconds), and the scalar conversion is mapped over it.  Output
timestamps are epoch milliseconds. -/
def mt5_date_to_utc_frame (fr : RatesFrame) : List Int :=
  if fr.time.length = 0 then []
  else
    let times :=
      match fr.time_msc with
      | some ms => ms
      | none => fr.time.map (· * 1000)
    times.map mt5_date_to_utc_ms

/-! ### Timeframe boundary test -/

/-- `is_datetime_exactly_at_start_of_timeframe_range` (`core.py` lines
131-149): `time.timestamp() % to_seconds(timeframe) == 0`, with
Python's floored modulo. -/
def is_datetime_exactly_at_start_of_timeframe_range
    (time : Int) (timeframe : TIMEFRAME) : Bool :=
  if time.emod (to_seconds timeframe) == 0 then true else false

/-- `are_datetimes_eq` (`core.py` lines 18-22): windowed equality of two
instants, in seconds. -/
def are_datetimes_eq (date1 date2 : Int) (window : Int) : Bool :=
  |date1 - date2| ≤ window

/-! ### Errors and validators -/

/-- `UnexpectedValueError` (`core.py` lines 10-15): carries the expected
value, the actual value, their difference `expected - actual`, and
(optionally) the rates that triggered it.  Expected/actual are epoch
seconds for the timestamp checks and row counts for the size checks;
both live in `Int` here.  `rates` is the list of UTC row timestamps. -/
structure UnexpectedValueError where
  expected : Int
  actual : Int
  diff : Int
  rates : Option (List Int)
  deriving DecidableEq, Repr

/-- The `UnexpectedValueError.__init__` constructor: `diff` is computed
as `expected - actual`; `rates` defaults to `None` at call sites that
omit it. -/
def mkUnexpectedValueError (expected actual : Int)
    (rates : Option (List Int)) : UnexpectedValueError :=
  ⟨expected, actual, expected - actual, rates⟩

/-- What a `get_rates_*` validation can raise: the typed
`UnexpectedValueError`, or the `IndexError` that pandas
`.iloc[0]` / `.iloc[-1]` raises on an empty DataFrame. -/
inductive FetchError
  | mismatch (e : UnexpectedValueError)
  | indexError
  deriving DecidableEq, Repr

/-- Post-fetch validation of `Symbol.get_rates_from_pos` (`core.py`
lines 205-210): the UTC-normalized row timestamps must number exactly
`count`, else `UnexpectedValueError(count, len(rates), rates)`. -/
def get_rates_from_pos_validate (times : List Int) (count : Nat) :
    Except FetchError (List Int) :=
  if times.length ≠ count then
    .error (.mismatch (mkUnexpectedValueError count times.length (some times)))
  else .ok times

/-- Post-fetch validation of `Symbol.get_rates_from` (`core.py` lines
227-242): reading `rates['time'].iloc[-1]` on an empty frame raises
`IndexError`; otherwise the last timestamp must equal `datetime_from`
within one timeframe duration, and the first timestamp must equal
`datetime_from - to_timedelta(timeframe) * (count - 1)` within one
timeframe duration; the raised `UnexpectedValueError`s carry no rates. -/
def get_rates_from_validate (times : List Int) (datetime_from : Int)
    (count : Nat) (timeframe : TIMEFRAME) : Except FetchError (List Int) :=
  match times.getLast?, times.head? with
  | some lastT, some firstT =>
    if ¬ are_datetimes_eq lastT datetime_from (to_seconds timeframe) then
      .error (.mismatch (mkUnexpectedValueError datetime_from lastT none))
    else
      let exp_datetime_to :=
        datetime_from - to_seconds timeframe * ((count : Int) - 1)
      if ¬ are_datetimes_eq firstT exp_datetime_to (to_seconds timeframe) then
        .error (.mismatch (mkUnexpectedValueError exp_datetime_to firstT none))
      else .ok times
  | _, _ => .error .indexError

/-- `exp_candles` of `Symbol.get_rates_range` (`core.py` lines 297-302):
`ceil(|datetime_to - datetime_from| / to_seconds(timeframe))
 + include_first + include_last - 1`, with Python bools adding as 0/1.
The exact ceiling of `a / b` for `0 ≤ a < b·2⁵²` is `(a + b - 1) / b`. -/
def exp_candles (datetime_from datetime_to : Int) (timeframe : TIMEFRAME)
    (include_first include_last : Bool) : Int :=
  let seconds_range := |datetime_to - datetime_from|
  let seconds_tf := to_seconds timeframe
  (seconds_range + seconds_tf - 1) / seconds_tf
    + (if include_first then 1 else 0)
    + (if include_last then 1 else 0) - 1

/-- Row-count check of `Symbol.get_rates_range` (`core.py` lines
296-305): raises `UnexpectedValueError(exp_candles, len(rates), rates)`
when `abs(len(rates) - exp_candles) > 0`. -/
def range_count_check (times : List Int) (datetime_from datetime_to : Int)
    (timeframe : TIMEFRAME) (include_first include_last : Bool) :
    Option UnexpectedValueError :=
  let exp := exp_candles datetime_from datetime_to timeframe
    include_first include_last
  if 0 < |(times.length : Int) - exp| then
    some (mkUnexpectedValueError exp times.length (some times))
  else none

/-- Post-fetch validation of `Symbol.get_rates_range` (`core.py` lines
282-307): reading `rates['time'].iloc[0]` on an empty frame raises
`IndexError`; otherwise the first timestamp is checked against the
original `datetime_from` and the last against the original
`datetime_to`, each within one timeframe duration (errors carry no
rates), and finally the row count is checked against `exp_candles`
(that error carries the rates). -/
def get_rates_range_validate (times : List Int)
    (datetime_from datetime_to : Int) (timeframe : TIMEFRAME)
    (include_first include_last : Bool) : Except FetchError (List Int) :=
  match times.head?, times.getLast? with
  | some firstT, some lastT =>
    if ¬ are_datetimes_eq firstT datetime_from (to_seconds timeframe) then
      .error (.mismatch (mkUnexpectedValueError datetime_from firstT none))
    else if ¬ are_datetimes_eq lastT datetime_to (to_seconds timeframe) then
      .error (.mismatch (mkUnexpectedValueError datetime_to lastT none))
    else
      match range_count_check times datetime_from datetime_to timeframe
        include_first include_last with
      | some e => .error (.mismatch e)
      | none => .ok times
  | _, _ => .error .indexError

/-- Pre-fetch adjustment of `Symbol.get_rates_range` (`core.py` lines
251-271): both endpoints go through `localized_date_to_mt5`; then the
adjusted start is shifted forward one duration when `datetime_from` is
exactly on a boundary and `include_first` is false, shifted back one
duration when it is not on a boundary and `include_first` is true; the
adjusted end is shifted back one duration when `include_last` is
false. -/
def get_rates_range_adjust (datetime_from datetime_to : Int)
    (timeframe : TIMEFRAME) (include_first include_last : Bool) :
    Int × Int :=
  let datetime_from_adj := localized_date_to_mt5 datetime_from
  let datetime_to_adj := localized_date_to_mt5 datetime_to
  let offset := to_seconds timeframe
  let datetime_from_adj :=
    if is_datetime_exactly_at_start_of_timeframe_range datetime_from timeframe
    then
      if ¬ include_first then datetime_from_adj + offset
      else datetime_from_adj
    else
      if include_first then datetime_from_adj - offset
      else datetime_from_adj
  let datetime_to_adj :=
    if ¬ include_last then datetime_to_adj - offset else datetime_to_adj
  (datetime_from_adj, datetime_to_adj)

/-! ### RetryingFetcher -/

/-- One run of the fetch loop shared by the three `get_rates_*` methods
(`core.py` lines 194-203, 219-225, 273-280):
`for n in range(10): rates = fetch(); if len(rates) > 0: break; sleep`.
`client i` is the result of the `i`-th raw terminal call; the result is
the final value of `rates` together with the number of raw calls made.
`fuel` is the number of loop iterations left (initially 10). -/
def retry_fetch_go (client : Nat → List α) : Nat → Nat → List α × Nat
  | 0, _ => ([], 0)
  | fuel + 1, n =>
    let rates := client n
    if 0 < rates.length then (rates, n + 1)
    else if fuel = 0 then (rates, n + 1)
    else retry_fetch_go client fuel (n + 1)

/-- The fetch loop with its 10 attempts, starting at call index 0. -/
def retry_fetch (client : Nat → List α) : List α × Nat :=
  retry_fetch_go client 10 0

/-! ### `Symbol.history` dispatch -/

/-- Which underlying request a `Symbol.history` call resolves to, or the
`AttributeError` it raises. -/
inductive HistoryResult
  | range (datetime_from datetime_to : Int) (include_first include_last : Bool)
  | fromTimestamp (datetime_from : Int) (count : Nat)
  | fromPos (start_pos : Nat) (count : Nat)
  | usageError
  deriving DecidableEq, Repr

/-- `Symbol.history` (`core.py` lines 309-340): if `datetime_from` is
given and `datetime_to` is given, dispatch to `get_rates_range`; else
if `datetime_from` and `count` are given, to `get_rates_from`; else if
`count` is given, to `get_rates_from_pos`; else raise
`AttributeError`. -/
def history (datetime_from datetime_to : Option Int) (start_pos : Nat)
    (count : Option Nat) (include_first include_last : Bool) :
    HistoryResult :=
  match datetime_from, datetime_to, count with
  | some f, some t, _ => .range f t include_first include_last
  | some f, none, some c => .fromTimestamp f c
  | none, _, some c => .fromPos start_pos c
  | some _, none, none => .usageError
  | none, _, none => .usageError

/-! ### Helper lemmas -/

theorem are_datetimes_eq_iff (d1 d2 w : Int) :
    are_datetimes_eq d1 d2 w = true ↔ |d1 - d2| ≤ w := by
  simp [are_datetimes_eq]

theorem range_count_check_none_iff (times : List Int) (s e : Int)
    (tf : TIMEFRAME) (include_first include_last : Bool) :
    range_count_check times s e tf include_first include_last = none ↔
      (times.length : Int) = exp_candles s e tf include_first include_last := by
  by_cases hc : (times.length : Int) =
      exp_candles s e tf include_first include_last
  · simp [range_count_check, hc]
  · have : 0 < |(times.length : Int) -
        exp_candles s e tf include_first include_last| := by
      rw [abs_pos, sub_ne_zero]; exact hc
    simp [range_count_check, this, hc]

/-! ### Claim theorems -/

/-- C9: for every Timeframe `tf` and every timestamp `t`,
`is_datetime_exactly_at_start_of_timeframe_range t tf` returns `true`
iff `t`'s epoch seconds modulo the timeframe's duration in seconds
equals 0 (the function is a total Lean function, hence pure with no
failure mode). -/
theorem C9_boundary_iff_mod (t : Int) (tf : TIMEFRAME) :
    is_datetime_exactly_at_start_of_timeframe_range t tf = true ↔
      t % to_seconds tf = 0 := by
  simp [is_datetime_exactly_at_start_of_timeframe_range]
  exact ⟨Int.dvd_of_emod_eq_zero, Int.emod_eq_zero_of_dvd⟩

/-- C3: before the fetch of a Range request, the broker-local endpoints
sent to the terminal are `localized_date_to_mt5` of the originals,
further shifted as follows: start forward one duration when the
original start is exactly on a boundary and `include_first` is false;
start back one duration when it is not on a boundary and
`include_first` is true; end back one duration when `include_last` is
false; unchanged in every other case. -/
theorem C3_range_prefetch_adjust (s e : Int) (tf : TIMEFRAME)
    (include_first include_last : Bool) :
    (is_datetime_exactly_at_start_of_timeframe_range s tf = true →
      include_first = false →
      (get_rates_range_adjust s e tf include_first include_last).1 =
        localized_date_to_mt5 s + to_seconds tf)
  ∧ (is_datetime_exactly_at_start_of_timeframe_range s tf = false →
      include_first = true →
      (get_rates_range_adjust s e tf include_first include_last).1 =
        localized_date_to_mt5 s - to_seconds tf)
  ∧ (is_datetime_exactly_at_start_of_timeframe_range s tf = include_first →
      (get_rates_range_adjust s e tf include_first include_last).1 =
        localized_date_to_mt5 s)
  ∧ (include_last = false →
      (get_rates_range_adjust s e tf include_first include_last).2 =
        localized_date_to_mt5 e - to_seconds tf)
  ∧ (include_last = true →
      (get_rates_range_adjust s e tf include_first include_last).2 =
        localized_date_to_mt5 e) := by
  cases hb : is_datetime_exactly_at_start_of_timeframe_range s tf <;>
    cases include_first <;> cases include_last <;>
    simp_all [get_rates_range_adjust]

/-- Witness for C3 at the spec's example: start 2021-01-06T11:25Z
(exactly on an M5 boundary), `include_first = include_last = true`,
so both endpoints pass through unchanged beyond the clock conversion. -/
theorem C3_witness :
    (get_rates_range_adjust 1609932300 1609933200 TIMEFRAME.M5 true true).1 =
      localized_date_to_mt5 1609932300
  ∧ (get_rates_range_adjust 1609932300 1609933200 TIMEFRAME.M5 true true).2 =
      localized_date_to_mt5 1609933200 :=
  ⟨(C3_range_prefetch_adjust 1609932300 1609933200 TIMEFRAME.M5 true
      true).2.2.1 (by decide),
   (C3_range_prefetch_adjust 1609932300 1609933200 TIMEFRAME.M5 true
      true).2.2.2.2 rfl⟩

/-- C1 (amended): the broker-clock round trip
`mt5_date_to_utc_scalar ∘ localized_date_to_mt5` is the identity at
every UTC instant `u` except those in the hour immediately before a
US-Eastern DST-to-standard transition (DST active at `u` but not at
`u + 3600`), where it yields `u + 3600`. -/
theorem C1_roundtrip (u : Int) :
    mt5_date_to_utc_scalar (localized_date_to_mt5 u) =
      if dstUS u = true ∧ dstUS (u + 3600) = false then u + 3600 else u := by
  have h1 : u + 10800 - 7200 = u + 3600 := by ring
  have h2 : u + 10800 - 10800 = u := by ring
  have h3 : u + 7200 - 7200 = u := by ring
  by_cases hd : dstUS u
  · by_cases he : dstUS (u + 3600)
    · simp [mt5_date_to_utc_scalar, localized_date_to_mt5, hd, h1, h2, he]
    · simp [mt5_date_to_utc_scalar, localized_date_to_mt5, hd, h1, he]
  · simp [mt5_date_to_utc_scalar, localized_date_to_mt5, hd, h3]

/-- Counterexample to C1 as stated: at `u` = 2021-11-07 05:30 UTC
(epoch 1636263000), half an hour before the US-Eastern fall-back
transition, the round trip does not return `u` (it returns
`u + 3600`). -/
theorem C1_counterexample :
    mt5_date_to_utc_scalar (localized_date_to_mt5 1636263000) ≠ 1636263000 := by
  decide

theorem retry_fetch_go_reaches {α : Type} (client : Nat → List α) (K : Nat) :
    ∀ fuel n, n ≤ K → K < n + fuel →
      (∀ i, n ≤ i → i < K → client i = []) → client K ≠ [] →
      retry_fetch_go client fuel n = (client K, K + 1) := by
  intro fuel
  induction fuel with
  | zero => intro n h1 h2 _ _; omega
  | succ fuel ih =>
    intro n h1 h2 hempty hK
    by_cases hn : n = K
    · subst hn
      have hpos : 0 < (client n).length := List.length_pos.mpr hK
      simp [retry_fetch_go, hpos]
    · have hnK : n < K := lt_of_le_of_ne h1 hn
      have hcn : client n = [] := hempty n le_rfl hnK
      have hfuel : fuel ≠ 0 := by omega
      have hrec := ih (n + 1) (by omega) (by omega)
        (fun i hi1 hi2 => hempty i (by omega) hi2) hK
      simp [retry_fetch_go, hcn, hfuel, hrec]

theorem retry_fetch_go_all_empty {α : Type} (client : Nat → List α) :
    ∀ fuel n, 0 < fuel → (∀ i, n ≤ i → i < n + fuel → client i = []) →
      retry_fetch_go client fuel n = ([], n + fuel) := by
  intro fuel
  induction fuel with
  | zero => intro n h _; omega
  | succ fuel ih =>
    intro n _ hempty
    have hcn : client n = [] := hempty n le_rfl (by omega)
    by_cases hf : fuel = 0
    · subst hf; simp [retry_fetch_go, hcn]
    · have hrec := ih (n + 1) (by omega)
        (fun i hi1 hi2 => hempty i (by omega) (by omega))
      have harith : n + 1 + fuel = n + (fuel + 1) := by omega
      simp [retry_fetch_go, hcn, hf, hrec, harith]

/-- C5: a fetch loop run against a terminal client that returns empty on
exactly the first `K < 10` calls and non-empty on call `K` makes exactly
`K + 1` raw calls and returns that non-empty result; a client that is
empty on all 10 attempts makes the loop return the last (empty) result
without any error. -/
theorem C5_retry_fetch (client : Nat → List Int) (K : Nat) :
    (K < 10 → (∀ i, i < K → client i = []) → client K ≠ [] →
      retry_fetch client = (client K, K + 1))
  ∧ ((∀ i, i < 10 → client i = []) → retry_fetch client = ([], 10)) := by
  constructor
  · intro h1 h2 h3
    exact retry_fetch_go_reaches client K 10 0 (by omega) (by omega)
      (fun i _ hi => h2 i hi) h3
  · intro h
    have := retry_fetch_go_all_empty client 10 0 (by omega)
      (fun i _ hi => h i (by omega))
    simpa using this

/-- Witness for C5: a client empty on calls 0,1,2 and non-empty on call
3 yields its call-3 result after exactly 4 calls; an always-empty
client yields the empty result after 10 calls. -/
theorem C5_witness :
    retry_fetch (fun i => if i < 3 then ([] : List Int) else [42]) = ([42], 4)
  ∧ retry_fetch (fun _ : Nat => ([] : List Int)) = ([], 10) := by
  constructor
  · have h := (C5_retry_fetch (fun i => if i < 3 then ([] : List Int) else [42])
      3).1 (by norm_num) (fun i hi => by simp [hi]) (by norm_num)
    simpa using h
  · exact (C5_retry_fetch (fun _ => []) 0).2 (fun i _ => rfl)

/-- C2: the Range row-count check accepts iff the returned row count
equals `exp_candles = ceil(|end-start|/duration) + include_first +
include_last - 1`, and otherwise produces the mismatch error with that
value as `expected`; given rows whose first/last timestamps pass the
tolerance checks, the full Range validator accepts iff the count
matches; at timeframe M5, start 2021-01-06T11:25Z, end
2021-01-06T11:40Z, `include_first = include_last = true`, the expected
count is 4. -/
theorem C2_range_count (times : List Int) (s e : Int) (tf : TIMEFRAME)
    (include_first include_last : Bool) :
    (range_count_check times s e tf include_first include_last = none ↔
      (times.length : Int) = exp_candles s e tf include_first include_last)
  ∧ (∀ err, range_count_check times s e tf include_first include_last =
        some err →
      err.expected = exp_candles s e tf include_first include_last)
  ∧ (∀ firstT lastT, times.head? = some firstT →
      times.getLast? = some lastT →
      are_datetimes_eq firstT s (to_seconds tf) = true →
      are_datetimes_eq lastT e (to_seconds tf) = true →
      (get_rates_range_validate times s e tf include_first include_last =
          .ok times ↔
        (times.length : Int) = exp_candles s e tf include_first include_last))
  ∧ exp_candles 1609932300 1609933200 TIMEFRAME.M5 true true = 4 := by
  refine ⟨range_count_check_none_iff times s e tf include_first include_last,
    ?_, ?_, by decide⟩
  · intro err herr
    by_cases hc : (times.length : Int) =
        exp_candles s e tf include_first include_last
    · rw [(range_count_check_none_iff times s e tf include_first
        include_last).mpr hc] at herr
      exact absurd herr (by simp)
    · have hpos : 0 < |(times.length : Int) -
          exp_candles s e tf include_first include_last| := by
        rw [abs_pos, sub_ne_zero]; exact hc
      simp only [range_count_check, hpos, if_pos] at herr
      cases herr
      rfl
  · intro firstT lastT hh hl hf hle
    by_cases hc : (times.length : Int) =
        exp_candles s e tf include_first include_last
    · have hnone := (range_count_check_none_iff times s e tf include_first
        include_last).mpr hc
      simp [get_rates_range_validate, hh, hl, hf, hle, hnone, hc]
    · have hpos : 0 < |(times.length : Int) -
          exp_candles s e tf include_first include_last| := by
        rw [abs_pos, sub_ne_zero]; exact hc
      simp [get_rates_range_validate, hh, hl, hf, hle, range_count_check,
        hpos, hc]

/-- Witness for C2 at the spec's example: four rows at
11:25Z/11:30Z/11:35Z/11:40Z pass the count check, and the full Range
validator accepts them. -/
theorem C2_witness :
    get_rates_range_validate [1609932300, 1609932600, 1609932900, 1609933200]
        1609932300 1609933200 TIMEFRAME.M5 true true =
      .ok [1609932300, 1609932600, 1609932900, 1609933200] :=
  ((C2_range_count [1609932300, 1609932600, 1609932900, 1609933200]
      1609932300 1609933200 TIMEFRAME.M5 true true).2.2.1
    1609932300 1609933200 rfl rfl (by decide) (by decide)).mpr (by decide)

/-- C4: for a non-empty UTC-normalized result, the FromTimestamp
validator accepts iff the last row's timestamp equals `start` within
one timeframe duration and the first row's timestamp equals
`start - (count-1)·duration` within one timeframe duration; any
violation is raised as the typed mismatch error. -/
theorem C4_from_validate (times : List Int) (datetime_from : Int)
    (count : Nat) (tf : TIMEFRAME) (firstT lastT : Int)
    (hh : times.head? = some firstT) (hl : times.getLast? = some lastT) :
    (get_rates_from_validate times datetime_from count tf = .ok times ↔
      |lastT - datetime_from| ≤ to_seconds tf ∧
      |firstT - (datetime_from - to_seconds tf * ((count : Int) - 1))| ≤
        to_seconds tf)
  ∧ (∀ err, get_rates_from_validate times datetime_from count tf =
        .error err → ∃ e, err = .mismatch e) := by
  by_cases h1 : |lastT - datetime_from| ≤ to_seconds tf
  · by_cases h2 : |firstT - (datetime_from -
        to_seconds tf * ((count : Int) - 1))| ≤ to_seconds tf
    · simp [get_rates_from_validate, hh, hl, are_datetimes_eq, h1, h2]
    · simp [get_rates_from_validate, hh, hl, are_datetimes_eq, h1, h2]
  · simp [get_rates_from_validate, hh, hl, are_datetimes_eq, h1]

/-- Witness for C4: a single row exactly at the requested start is
accepted by the FromTimestamp validator. -/
theorem C4_witness :
    get_rates_from_validate [1609932300] 1609932300 1 TIMEFRAME.M5 =
      .ok [1609932300] :=
  (C4_from_validate [1609932300] 1609932300 1 TIMEFRAME.M5 1609932300
      1609932300 rfl rfl).1.mpr (by decide)

theorem range_count_check_some (times : List Int) (s e : Int)
    (tf : TIMEFRAME) (include_first include_last : Bool)
    (h : (times.length : Int) ≠ exp_candles s e tf include_first include_last) :
    range_count_check times s e tf include_first include_last =
      some (mkUnexpectedValueError
        (exp_candles s e tf include_first include_last)
        times.length (some times)) := by
  have hpos : 0 < |(times.length : Int) -
      exp_candles s e tf include_first include_last| := by
    rw [abs_pos, sub_ne_zero]; exact h
  simp [range_count_check, hpos]

/-- Counterexample to C6 as stated: an empty result flowing into the
FromTimestamp or Range validator raises the pandas indexing error, not
the typed mismatch error. -/
theorem C6_counterexample :
    get_rates_from_validate [] 1609932300 1 TIMEFRAME.M5 =
      .error .indexError
  ∧ get_rates_range_validate [] 1609932300 1609933200 TIMEFRAME.M5 true true =
      .error .indexError := ⟨rfl, rfl⟩

/-- C6 (amended): after retry exhaustion an empty result raises the
typed mismatch error only for the FromPosition shape (whenever
`count ≠ 0`); for the FromTimestamp and Range shapes the empty result
hits `rates['time'].iloc[...]` and raises an indexing error instead. -/
theorem C6_empty_result (count c : Nat) (s e : Int) (tf : TIMEFRAME)
    (include_first include_last : Bool) :
    (count ≠ 0 → get_rates_from_pos_validate [] count =
      .error (.mismatch (mkUnexpectedValueError count 0 (some []))))
  ∧ get_rates_from_validate [] s c tf = .error .indexError
  ∧ get_rates_range_validate [] s e tf include_first include_last =
      .error .indexError := by
  refine ⟨?_, rfl, rfl⟩
  intro hcount
  have h0 : (([] : List Int).length ≠ count) := by simpa using Ne.symm hcount
  simp [get_rates_from_pos_validate, h0]
  omega

/-- Witness for C6 (amended), FromPosition conjunct at `count = 1`. -/
theorem C6_witness :
    get_rates_from_pos_validate [] 1 =
      .error (.mismatch (mkUnexpectedValueError 1 0 (some []))) :=
  (C6_empty_result 1 1 1609932300 1609933200 TIMEFRAME.M5 true true).1
    (by decide)

/-- Counterexample to C7 as stated: a last-timestamp violation in the
FromTimestamp validator raises a mismatch error whose `rates` payload
is `None` — the offending rows are not carried. -/
theorem C7_counterexample :
    get_rates_from_validate [0] 1000000 1 TIMEFRAME.M5 =
      .error (.mismatch (mkUnexpectedValueError 1000000 0 none))
  ∧ (mkUnexpectedValueError 1000000 0 none).rates = none := by
  refine ⟨?_, rfl⟩
  have h1 : ¬ are_datetimes_eq 0 1000000 (to_seconds TIMEFRAME.M5) = true := by
    decide
  simp [get_rates_from_validate, h1]

/-- C7 (amended): every mismatch error raised by a validator carries
`expected`, `actual` and `diff = expected - actual`; the offending rows
are carried only by the count-check errors (the FromPosition count
check and the Range count check), while the timestamp-check errors of
the FromTimestamp and Range validators carry no rows. -/
theorem C7_mismatch_payload (times : List Int) (count c : Nat)
    (dfrom s e : Int) (tf : TIMEFRAME) (include_first include_last : Bool)
    (err : UnexpectedValueError) :
    (get_rates_from_pos_validate times count = .error (.mismatch err) →
      err.diff = err.expected - err.actual ∧ err.rates = some times)
  ∧ (get_rates_from_validate times dfrom c tf = .error (.mismatch err) →
      err.diff = err.expected - err.actual ∧ err.rates = none)
  ∧ (get_rates_range_validate times s e tf include_first include_last =
        .error (.mismatch err) →
      err.diff = err.expected - err.actual ∧
      ((err.rates = some times ∧
          err.expected = exp_candles s e tf include_first include_last ∧
          err.actual = times.length)
        ∨ (err.rates = none ∧ (err.expected = s ∨ err.expected = e)))) := by
  refine ⟨?_, ?_, ?_⟩
  · intro h
    simp only [get_rates_from_pos_validate] at h
    split at h
    · simp only [Except.error.injEq, FetchError.mismatch.injEq] at h
      subst h
      exact ⟨rfl, rfl⟩
    · simp at h
  · intro h
    rcases hgl : times.getLast? with _ | lastT <;>
      rcases hhd : times.head? with _ | firstT <;>
      simp only [get_rates_from_validate, hgl, hhd] at h <;>
      try simp at h
    split at h
    · simp only [Except.error.injEq, FetchError.mismatch.injEq] at h
      subst h
      exact ⟨rfl, rfl⟩
    · split at h
      · simp only [Except.error.injEq, FetchError.mismatch.injEq] at h
        subst h
        exact ⟨rfl, rfl⟩
      · simp at h
  · intro h
    rcases hhd : times.head? with _ | firstT <;>
      rcases hgl : times.getLast? with _ | lastT <;>
      simp only [get_rates_range_validate, hhd, hgl] at h <;>
      try simp at h
    split at h
    · simp only [Except.error.injEq, FetchError.mismatch.injEq] at h
      subst h
      exact ⟨rfl, Or.inr ⟨rfl, Or.inl rfl⟩⟩
    · split at h
      · simp only [Except.error.injEq, FetchError.mismatch.injEq] at h
        subst h
        exact ⟨rfl, Or.inr ⟨rfl, Or.inr rfl⟩⟩
      · by_cases hc : (times.length : Int) =
            exp_candles s e tf include_first include_last
        · rw [(range_count_check_none_iff times s e tf include_first
            include_last).mpr hc] at h
          simp at h
        · rw [range_count_check_some times s e tf include_first include_last
            hc] at h
          simp only [Except.error.injEq, FetchError.mismatch.injEq] at h
          subst h
          exact ⟨rfl, Or.inl ⟨rfl, rfl, rfl⟩⟩

/-- Witness for C7 (amended), FromPosition conjunct: the count-mismatch
error of an empty result against `count = 1` carries its rows and the
computed difference. -/
theorem C7_witness :
    (mkUnexpectedValueError 1 0 (some [])).diff =
        (mkUnexpectedValueError 1 0 (some [])).expected -
          (mkUnexpectedValueError 1 0 (some [])).actual
  ∧ (mkUnexpectedValueError 1 0 (some [])).rates = some [] :=
  (C7_mismatch_payload [] 1 1 0 1609932300 1609933200 TIMEFRAME.M5 true true
      (mkUnexpectedValueError 1 0 (some []))).1
    (by
      have h0 : (([] : List Int).length ≠ 1) := by simp
      simp [get_rates_from_pos_validate, h0, mkUnexpectedValueError])

/-- C8: `Symbol.history` selects exactly one request shape by presence
precedence Range > FromTimestamp > FromPosition — Range when both
timestamps are given, FromTimestamp when a start timestamp and a count
are given, FromPosition when a count is given — and the usage error is
raised iff no shape's required arguments are fully present. -/
theorem C8_history_dispatch (datetime_from datetime_to : Option Int)
    (start_pos : Nat) (count : Option Nat)
    (include_first include_last : Bool) :
    (∀ f t, datetime_from = some f → datetime_to = some t →
      history datetime_from datetime_to start_pos count include_first
          include_last =
        .range f t include_first include_last)
  ∧ (∀ f cnt, datetime_from = some f → datetime_to = none →
      count = some cnt →
      history datetime_from datetime_to start_pos count include_first
          include_last =
        .fromTimestamp f cnt)
  ∧ (∀ cnt, datetime_from = none → count = some cnt →
      history datetime_from datetime_to start_pos count include_first
          include_last =
        .fromPos start_pos cnt)
  ∧ (history datetime_from datetime_to start_pos count include_first
        include_last = .usageError ↔
      ¬ (datetime_from.isSome ∧ datetime_to.isSome)
        ∧ ¬ (datetime_from.isSome ∧ count.isSome)
        ∧ ¬ count.isSome) := by
  cases datetime_from <;> cases datetime_to <;> cases count <;>
    simp [history]

/-- Witness for C8: with both timestamps present (and no count), a
Range request is selected. -/
theorem C8_witness :
    history (some 1609932300) (some 1609933200) 0 none true true =
      .range 1609932300 1609933200 true true :=
  (C8_history_dispatch (some 1609932300) (some 1609933200) 0 none true
      true).1 1609932300 1609933200 rfl rfl

/-- C10: on a non-empty rates series the DataFrame branch of
`mt5_date_to_utc` derives every returned timestamp from the
millisecond column `time_msc` when it is present — the output is then
independent of the `time` column's values — and from the seconds
column `time` otherwise. -/
theorem C10_time_msc_precedence (fr : RatesFrame) (ms : List Int)
    (hne : fr.time ≠ []) :
    (fr.time_msc = some ms →
      mt5_date_to_utc_frame fr = ms.map mt5_date_to_utc_ms
        ∧ ∀ time', time' ≠ [] →
            mt5_date_to_utc_frame ⟨time', some ms⟩ = mt5_date_to_utc_frame fr)
  ∧ (fr.time_msc = none →
      mt5_date_to_utc_frame fr =
        fr.time.map (fun sec => mt5_date_to_utc_ms (sec * 1000))) := by
  have hlen : fr.time.length ≠ 0 := by
    simpa [List.length_eq_zero] using hne
  constructor
  · intro hmsc
    constructor
    · simp [mt5_date_to_utc_frame, hlen, hmsc]
    · intro time' hne'
      have hlen' : time'.length ≠ 0 := by
        simpa [List.length_eq_zero] using hne'
      simp [mt5_date_to_utc_frame, hlen, hlen', hmsc]
  · intro hmsc
    simp [mt5_date_to_utc_frame, hlen, hmsc, List.map_map, Function.comp]

/-- Witness for C10: a one-row frame carrying both columns converts via
the millisecond value; dropping the millisecond column converts via
the seconds value. -/
theorem C10_witness :
    mt5_date_to_utc_frame ⟨[1609932300], some [1609932300123]⟩ =
      [1609932300123].map mt5_date_to_utc_ms
  ∧ mt5_date_to_utc_frame ⟨[1609932300], none⟩ =
      [1609932300].map (fun sec => mt5_date_to_utc_ms (sec * 1000)) :=
  ⟨((C10_time_msc_precedence ⟨[1609932300], some [1609932300123]⟩
        [1609932300123] (List.cons_ne_nil _ _)).1 rfl).1,
   (C10_time_msc_precedence ⟨[1609932300], none⟩ []
        (List.cons_ne_nil _ _)).2 rfl⟩
